import Mathlib

set_option maxRecDepth 8000

/-!
Shallow embedding of the mortgage-optimizer-backend deal-aggregation pipeline
(src/server.js), with the per-source scraper adapters treated as opaque inputs.

Numbers are modelled as exact rationals (ℚ): every arithmetic operation the
source performs on its numeric fields (addition, multiplication, division,
powers, the cent rounding via Math.round(x*100)/100 and Math.ceil) is embedded
exactly.  Database effects are modelled by explicit state passing: the deals
table is a list of rows, the scrape_logs table a list of log rows, and each
query that can fail is an Except value.  The scraper adapter is an input of
type Except String (List Candidate): an .ok value stands for a scrape that
resolved with a list of candidate records, an .error value for a scrape whose
promise rejected.  Per-record persistence failures (caught individually inside
saveDeals in the source) are modelled by a failure oracle ok : Candidate → Bool.
-/

/-- JS Math.round(x*100)/100 : round to 2 decimals, half toward positive
infinity (Math.round(x) = floor(x + 0.5)). -/
def round2 (x : ℚ) : ℚ := (⌊x * 100 + 1/2⌋ : ℤ) / 100

/-- JS Math.ceil on an exact rational. -/
def jsCeil (x : ℚ) : ℤ := ⌈x⌉

/-- A row of the deals table / a fully normalized deal object.  Field defaults
exist only to keep concrete test values short; every concrete value spells out
the fields it relies on. -/
structure DealRec where
  lenderName : String := ""
  productName : String := ""
  interestRate : ℚ := 0
  dealType : String := "Fixed"
  termYears : Int := 2
  maxLTV : ℚ := 75
  arrangementFee : ℚ := 0
  valuationFee : ℚ := 0
  legalFees : ℚ := 0
  cashback : ℚ := 0
  freeValuation : Bool := false
  freeLegalWork : Bool := false
  overpaymentAllowance : Option ℚ := none
  earlyRepaymentCharges : String := ""
  lenderType : String := "UK Mainstream"
  source : String := ""
  scrapedAt : Nat := 0

/-- A candidate record produced by a source adapter: loosely typed, fields may
be absent (none).  lenderName, productName and interestRate are the fields the
INSERT passes through unmodified (they form the conflict key). -/
structure Candidate where
  lenderName : String
  productName : String
  interestRate : ℚ
  dealType : Option String := none
  termYears : Option Int := none
  maxLTV : Option ℚ := none
  arrangementFee : Option ℚ := none
  valuationFee : Option ℚ := none
  legalFees : Option ℚ := none
  cashback : Option ℚ := none
  freeValuation : Option Bool := none
  freeLegalWork : Option Bool := none
  overpaymentAllowance : Option ℚ := none
  earlyRepaymentCharges : Option String := none
  lenderType : Option String := none

/-- JS x || d for a string field: undefined and the empty string are falsy. -/
def jsOrStr (x : Option String) (d : String) : String :=
  match x with
  | none => d
  | some s => if s = "" then d else s

/-- JS x || d for an integer field: undefined and 0 are falsy. -/
def jsOrInt (x : Option Int) (d : Int) : Int :=
  match x with
  | none => d
  | some v => if v = 0 then d else v

/-- JS x || d for a numeric field: undefined and 0 are falsy. -/
def jsOrRat (x : Option ℚ) (d : ℚ) : ℚ :=
  match x with
  | none => d
  | some v => if v = 0 then d else v

/-- JS x || null for a numeric field: undefined and 0 both become null. -/
def jsOrNullRat (x : Option ℚ) : Option ℚ :=
  match x with
  | none => none
  | some v => if v = 0 then none else some v

/-- JS x || false for a boolean field. -/
def jsOrBool (x : Option Bool) : Bool := x.getD false

/-- The parameter list of the INSERT in saveDeals (src/server.js lines
134-162): defaults applied with JS truthiness, key fields passed through. -/
def normalizeDeal (c : Candidate) (src : String) (now : Nat) : DealRec where
  lenderName := c.lenderName
  productName := c.productName
  interestRate := c.interestRate
  dealType := jsOrStr c.dealType "Fixed"
  termYears := jsOrInt c.termYears 2
  maxLTV := jsOrRat c.maxLTV 75
  arrangementFee := jsOrRat c.arrangementFee 0
  valuationFee := jsOrRat c.valuationFee 0
  legalFees := jsOrRat c.legalFees 0
  cashback := jsOrRat c.cashback 0
  freeValuation := jsOrBool c.freeValuation
  freeLegalWork := jsOrBool c.freeLegalWork
  overpaymentAllowance := jsOrNullRat c.overpaymentAllowance
  earlyRepaymentCharges := (c.earlyRepaymentCharges).getD ""
  lenderType := jsOrStr c.lenderType "UK Mainstream"
  source := src
  scrapedAt := now

/-- The UNIQUE(lender_name, product_name, interest_rate) conflict key. -/
def keyMatchB (c : Candidate) (r : DealRec) : Bool :=
  r.lenderName == c.lenderName && r.productName == c.productName &&
    r.interestRate == c.interestRate

/-- The DO UPDATE clause of the upsert: only arrangement_fee (set to the
inserted value) and scraped_at change. -/
def updateOnConflict (c : Candidate) (now : Nat) (r : DealRec) : DealRec :=
  { r with arrangementFee := jsOrRat c.arrangementFee 0, scrapedAt := now }

/-- INSERT ... ON CONFLICT (lender_name, product_name, interest_rate)
DO UPDATE SET arrangement_fee = EXCLUDED.arrangement_fee,
scraped_at = CURRENT_TIMESTAMP, over a table modelled as a row list. -/
def upsertDeal (t : List DealRec) (c : Candidate) (src : String) (now : Nat) :
    List DealRec :=
  if t.any (keyMatchB c) then
    t.map (fun r => if keyMatchB c r then updateOnConflict c now r else r)
  else
    t ++ [normalizeDeal c src now]

/-- A row of the scrape_logs audit table. -/
structure LogRow where
  source : String
  status : String
  dealsFound : Nat
  errorMessage : Option String

/-- The durable state: the deals table and the scrape_logs table. -/
structure DbState where
  deals : List DealRec
  logs : List LogRow

/-- logScrape(source, status, dealsFound, errorMessage): append one audit row. -/
def logScrape (st : DbState) (src status : String) (n : Nat)
    (err : Option String) : DbState :=
  { st with logs := st.logs ++ [⟨src, status, n, err⟩] }

/-- One iteration of the saveDeals loop: a per-record persistence failure
(ok c = false) is caught and skipped, a success upserts and increments
savedCount. -/
def saveStep (src : String) (now : Nat) (ok : Candidate → Bool)
    (acc : List DealRec × Nat) (c : Candidate) : List DealRec × Nat :=
  if ok c then (upsertDeal acc.1 c src now, acc.2 + 1) else acc

/-- saveDeals(deals, source): best-effort upsert loop followed by one
unconditional success audit row carrying savedCount.  Returns the new state
and savedCount. -/
def saveDeals (st : DbState) (cands : List Candidate) (src : String)
    (ok : Candidate → Bool) (now : Nat) : DbState × Nat :=
  let res := cands.foldl (saveStep src now ok) (st.deals, 0)
  (logScrape { st with deals := res.1 } src "success" res.2 none, res.2)

/-- An entry of the summary array returned by runAllScrapers. -/
structure SummaryEntry where
  source : String
  deals : Nat

/-- runAllScrapers(): the single configured source is MoneySuperMarket.  On a
resolved scrape the summary entry is pushed with the ACQUIRED count
(msmDeals.length) before saveDeals runs; on a rejected scrape the catch block
logs an error audit row with count 0 and pushes nothing. -/
def runAllScrapers (scrapeResult : Except String (List Candidate))
    (ok : Candidate → Bool) (now : Nat) (st : DbState) :
    List SummaryEntry × DbState :=
  match scrapeResult with
  | .ok ds =>
      ([⟨"MoneySuperMarket", ds.length⟩], (saveDeals st ds "MoneySuperMarket" ok now).1)
  | .error msg =>
      ([], logScrape st "MoneySuperMarket" "error" 0 (some msg))

/-- The fixed principal used by addMetrics and getSampleDeals: 85819.31. -/
def principalConst : ℚ := 8581931/100

/-- The fixed amortization horizon used by addMetrics and getSampleDeals:
years = 15, numPayments = 180. -/
def numPayments : Nat := 180

/-- The unguarded amortizing-payment formula of getSampleDeals
(src/server.js lines 354-356). -/
def samplePayment (rate : ℚ) : ℚ :=
  let r := rate / 100 / 12
  principalConst * (r * (1 + r) ^ numPayments) / ((1 + r) ^ numPayments - 1)

/-- The guarded monthly payment of addMetrics (src/server.js lines 96-100):
the amortization formula when monthlyRate > 0, otherwise 0. -/
def rawMonthlyPayment (rate : ℚ) : ℚ :=
  let r := rate / 100 / 12
  if 0 < r then
    principalConst * (r * (1 + r) ^ numPayments) / ((1 + r) ^ numPayments - 1)
  else 0

/-- netFees = arrangementFee + valuationFee + legalFees - cashback. -/
def netFeesOf (d : DealRec) : ℚ :=
  d.arrangementFee + d.valuationFee + d.legalFees - d.cashback

/-- The response object produced by addMetrics: the deal spread plus the
derived metric fields. -/
structure Enriched where
  deal : DealRec
  monthlyPayment : ℚ
  totalCost2Years : ℚ
  totalCost5Years : ℚ
  monthlySavings : Option ℚ
  breakEvenMonths : Option Int

/-- addMetrics(deal, baselineMonthly) (src/server.js lines 93-126).  The
total costs use the unrounded payment; monthlySavings and the break-even test
use the ROUNDED payment (result.monthlyPayment) but the break-even guard and
quotient use the unrounded difference savings = baseline - roundedPayment. -/
def addMetrics (d : DealRec) (baselineMonthly : Option ℚ) : Enriched :=
  let pay := rawMonthlyPayment d.interestRate
  let nf := netFeesOf d
  let mp := round2 pay
  { deal := d
    monthlyPayment := mp
    totalCost2Years := round2 (pay * 24 + nf)
    totalCost5Years := round2 (pay * 60 + nf)
    monthlySavings := baselineMonthly.map (fun b => round2 (b - mp))
    breakEvenMonths := baselineMonthly.bind (fun b =>
      if 0 < b - mp ∧ 0 < nf then some (jsCeil (nf / (b - mp))) else none) }

/-- The nine optional query filters of GET /api/deals/search, typed after
query-string coercion (a flag filter applies exactly when the raw parameter
was the string true, hence Bool). -/
structure Filters where
  maxRate : Option ℚ := none
  minLTV : Option ℚ := none
  dealType : Option String := none
  lenderType : Option String := none
  termYears : Option Int := none
  freeValuation : Bool := false
  freeLegalWork : Bool := false
  maxArrangementFee : Option ℚ := none
  hasCashback : Bool := false

/-- An absent optional filter imposes no constraint. -/
def optCheck {α : Type} (x : Option α) (p : α → Bool) : Bool :=
  match x with
  | none => true
  | some v => p v

/-- The AND-composed filter predicate.  The SQL WHERE clauses (lines 384-430)
and the copy-pasted in-memory filter (lines 441-452, 464-475) impose the same
nine conditions, so one predicate embeds both. -/
def matchesFilters (f : Filters) (d : DealRec) : Bool :=
  optCheck f.maxRate (fun r => decide (d.interestRate ≤ r)) &&
  optCheck f.minLTV (fun v => decide (v ≤ d.maxLTV)) &&
  optCheck f.dealType (fun s => d.dealType == s) &&
  optCheck f.lenderType (fun s => d.lenderType == s) &&
  optCheck f.termYears (fun n => d.termYears == n) &&
  (!f.freeValuation || d.freeValuation) &&
  (!f.freeLegalWork || d.freeLegalWork) &&
  optCheck f.maxArrangementFee (fun m => decide (d.arrangementFee ≤ m)) &&
  (!f.hasCashback || decide (0 < d.cashback))

/-- Ordering by ascending interest rate (ORDER BY interest_rate ASC). -/
def rateLE (a b : DealRec) : Prop := a.interestRate ≤ b.interestRate

instance : DecidableRel rateLE :=
  fun a b => inferInstanceAs (Decidable (a.interestRate ≤ b.interestRate))

instance : IsTotal DealRec rateLE := ⟨fun a b => le_total a.interestRate b.interestRate⟩

instance : IsTrans DealRec rateLE := ⟨fun _ _ _ h h2 => le_trans h h2⟩

/-- A sorted-by-rate permutation, standing for ORDER BY interest_rate ASC. -/
def sortByRate (l : List DealRec) : List DealRec := l.insertionSort rateLE

/-- JS parseInt(s, 10): optional sign then the longest leading digit run;
none models NaN. -/
def parseIntJS (s : String) : Option Int :=
  let cs := s.toList.dropWhile (fun ch => ch = ' ')
  let signed : Bool × List Char :=
    match cs with
    | '-' :: r => (true, r)
    | '+' :: r => (false, r)
    | r => (false, r)
  let ds := signed.2.takeWhile Char.isDigit
  if ds.isEmpty then none
  else
    let n : Nat := ds.foldl (fun a ch => a * 10 + (ch.toNat - 48)) 0
    some (if signed.1 then -(n : Int) else (n : Int))

/-- const lim = parseInt(limit || 50, 10); isNaN(lim) ? 50 : lim.  An absent
or empty limit parameter parses the literal 50; a NaN parse falls back to 50;
any other parse result (zero or negative included) is used as is. -/
def effectiveLimit (limit : Option String) : Int :=
  match limit with
  | none => 50
  | some s => if s = "" then 50 else (parseIntJS s).getD 50

/-- JS Array.prototype.slice(0, n): a nonnegative n takes the first n
elements, a negative n drops the last -n elements. -/
def jsSlice {α : Type} (l : List α) (n : Int) : List α :=
  if 0 ≤ n then l.take n.toNat else l.take (l.length - (-n).toNat)

/-- The repository read of the search route: filter, order ascending by rate,
LIMIT.  PostgreSQL rejects a negative LIMIT, which the route surfaces as a
query error (caught by the fallback). -/
def dbQuery (t : List DealRec) (f : Filters) (lim : Int) :
    Except Unit (List DealRec) :=
  if lim < 0 then .error ()
  else .ok ((sortByRate (t.filter (matchesFilters f))).take lim.toNat)

/-- The repository stage outcome: a connection failure or a query failure both
surface as an error. -/
def dbResultOf (db : Except Unit (List DealRec)) (f : Filters) (lim : Int) :
    Except Unit (List DealRec) :=
  match db with
  | .ok t => dbQuery t f lim
  | .error _ => .error ()

/-- The live-acquisition fallback of the search route: apply the same filter
predicates in memory, slice(0, lim), enrich.  No reordering happens here. -/
def inMemoryStage (cs : List DealRec) (f : Filters) (lim : Int)
    (b : Option ℚ) : List Enriched :=
  (jsSlice (cs.filter (matchesFilters f)) lim).map (fun d => addMetrics d b)

/-- GET /api/deals/search (src/server.js lines 365-482).  The db argument is
the deals-table read (an error models a connection/query failure), the scrape
argument the live adapter call.  The route returns an error response only when
the repository stage fails or is empty AND the live scrape also throws. -/
def searchHandler (db : Except Unit (List DealRec))
    (scrape : Except Unit (List DealRec)) (f : Filters)
    (limit : Option String) (b : Option ℚ) : Except Unit (List Enriched) :=
  let lim := effectiveLimit limit
  match dbResultOf db f lim with
  | .ok rows =>
      let normalized := rows.map (fun d => addMetrics d b)
      if normalized.isEmpty then
        match scrape with
        | .ok cs => .ok (inMemoryStage cs f lim b)
        | .error _ => .error ()
      else .ok normalized
  | .error _ =>
      match scrape with
      | .ok cs => .ok (inMemoryStage cs f lim b)
      | .error _ => .error ()

/-- The 24 hardcoded sample deals of getSampleDeals (src/server.js lines
325-350), without the monthlyPayment the function then maps over them. -/
def getSampleDealsBase : List DealRec := [
  { lenderName := "First Direct", productName := "5 Year Fixed - 60% LTV", interestRate := 4.05, dealType := "Fixed", termYears := 5, maxLTV := 60, arrangementFee := 490, freeValuation := true, freeLegalWork := true },
  { lenderName := "Santander", productName := "5 Year Fixed - 60% LTV", interestRate := 4.09, dealType := "Fixed", termYears := 5, maxLTV := 60, arrangementFee := 999, freeValuation := true, freeLegalWork := true },
  { lenderName := "Coventry BS", productName := "2 Year Fixed - 60% LTV", interestRate := 4.12, dealType := "Fixed", termYears := 2, maxLTV := 60, arrangementFee := 999, freeValuation := true, freeLegalWork := true },
  { lenderName := "Monzo", productName := "5 Year Fixed - 60% LTV", interestRate := 4.15, dealType := "Fixed", termYears := 5, maxLTV := 60, arrangementFee := 0, freeValuation := true, freeLegalWork := true, lenderType := "UK Challenger Bank" },
  { lenderName := "Halifax", productName := "2 Year Fixed - 60% LTV", interestRate := 4.15, dealType := "Fixed", termYears := 2, maxLTV := 60, arrangementFee := 1499, cashback := 500, freeValuation := true, freeLegalWork := true },
  { lenderName := "Nationwide", productName := "2 Year Fixed - 60% LTV", interestRate := 4.19, dealType := "Fixed", termYears := 2, maxLTV := 60, arrangementFee := 999, freeValuation := true, freeLegalWork := true, overpaymentAllowance := some 10, earlyRepaymentCharges := "2% Year 1, 1% Year 2" },
  { lenderName := "Lloyds Bank", productName := "2 Year Fixed - 60% LTV", interestRate := 4.22, dealType := "Fixed", termYears := 2, maxLTV := 60, arrangementFee := 999, freeValuation := true, freeLegalWork := true },
  { lenderName := "Virgin Money", productName := "5 Year Fixed - 75% LTV", interestRate := 4.25, dealType := "Fixed", termYears := 5, maxLTV := 75, arrangementFee := 995, freeValuation := true, freeLegalWork := true },
  { lenderName := "HSBC", productName := "5 Year Fixed - 75% LTV", interestRate := 4.29, dealType := "Fixed", termYears := 5, maxLTV := 75, arrangementFee := 999, cashback := 250, freeValuation := true, freeLegalWork := false },
  { lenderName := "Atom Bank", productName := "2 Year Fixed - 75% LTV", interestRate := 4.29, dealType := "Fixed", termYears := 2, maxLTV := 75, arrangementFee := 0, freeValuation := true, freeLegalWork := true, lenderType := "UK Challenger Bank" },
  { lenderName := "Yorkshire BS", productName := "5 Year Fixed - 75% LTV", interestRate := 4.31, dealType := "Fixed", termYears := 5, maxLTV := 75, arrangementFee := 0, freeValuation := true, freeLegalWork := true },
  { lenderName := "Barclays", productName := "2 Year Fixed - 75% LTV", interestRate := 4.35, dealType := "Fixed", termYears := 2, maxLTV := 75, arrangementFee := 899, freeValuation := true, freeLegalWork := true },
  { lenderName := "Leeds BS", productName := "2 Year Fixed - 75% LTV", interestRate := 4.35, dealType := "Fixed", termYears := 2, maxLTV := 75, arrangementFee := 999, freeValuation := true, freeLegalWork := false },
  { lenderName := "TSB", productName := "2 Year Fixed - 75% LTV", interestRate := 4.39, dealType := "Fixed", termYears := 2, maxLTV := 75, arrangementFee := 995, freeValuation := true, freeLegalWork := false },
  { lenderName := "Skipton BS", productName := "2 Year Fixed - 75% LTV", interestRate := 4.45, dealType := "Fixed", termYears := 2, maxLTV := 75, arrangementFee := 995, freeValuation := true, freeLegalWork := false },
  { lenderName := "NatWest", productName := "2 Year Fixed - 75% LTV", interestRate := 4.49, dealType := "Fixed", termYears := 2, maxLTV := 75, arrangementFee := 0, freeValuation := true, freeLegalWork := true },
  { lenderName := "Metro Bank", productName := "3 Year Fixed - 75% LTV", interestRate := 4.55, dealType := "Fixed", termYears := 3, maxLTV := 75, arrangementFee := 499, cashback := 1000, freeValuation := true, freeLegalWork := true, lenderType := "UK Challenger Bank" },
  { lenderName := "Nationwide", productName := "10 Year Fixed - 60% LTV", interestRate := 4.59, dealType := "Fixed", termYears := 10, maxLTV := 60, arrangementFee := 999, freeValuation := true, freeLegalWork := true },
  { lenderName := "Al Rayan Bank", productName := "Home Purchase Plan - 75% LTV", interestRate := 4.69, dealType := "Fixed", termYears := 2, maxLTV := 75, arrangementFee := 999, freeValuation := true, freeLegalWork := false, lenderType := "Islamic Finance" },
  { lenderName := "HSBC", productName := "2 Year Tracker - 60% LTV", interestRate := 4.79, dealType := "Tracker", termYears := 2, maxLTV := 60, arrangementFee := 999, freeValuation := true, freeLegalWork := true, overpaymentAllowance := some 10 },
  { lenderName := "Coutts", productName := "Private Mortgage - 70% LTV", interestRate := 4.85, dealType := "Fixed", termYears := 5, maxLTV := 70, arrangementFee := 0, freeValuation := true, freeLegalWork := true, lenderType := "Private Bank" },
  { lenderName := "HSBC Expat", productName := "2 Year Fixed - 70% LTV", interestRate := 4.99, dealType := "Fixed", termYears := 2, maxLTV := 70, arrangementFee := 1500, freeValuation := false, freeLegalWork := false, lenderType := "Offshore - Jersey" },
  { lenderName := "Barclays", productName := "Lifetime Tracker - 75% LTV", interestRate := 5.09, dealType := "Tracker", termYears := 25, maxLTV := 75, arrangementFee := 0, freeValuation := true, freeLegalWork := true, overpaymentAllowance := some 100, earlyRepaymentCharges := "None" },
  { lenderName := "Butterfield", productName := "5 Year Fixed - 65% LTV", interestRate := 5.25, dealType := "Fixed", termYears := 5, maxLTV := 65, arrangementFee := 2000, freeValuation := false, freeLegalWork := false, lenderType := "Offshore - Guernsey" }]

/-- getSampleDeals(): each sample deal paired with its precomputed
monthlyPayment, mapped exactly as the source does (principal 85819.31 over 15
years, unguarded formula, rounded to 2 decimals). -/
def getSampleDeals : List (DealRec × ℚ) :=
  getSampleDealsBase.map (fun d => (d, round2 (samplePayment d.interestRate)))

/-- GET /api/deals/latest (src/server.js lines 226-267): unfiltered top-100 by
ascending rate; the static sample set replaces an empty result or a repository
error.  The route never produces an error response. -/
def latestHandler (db : Except Unit (List DealRec)) (b : Option ℚ) :
    List Enriched :=
  match db with
  | .ok t =>
      let normalized := ((sortByRate t).take 100).map (fun d => addMetrics d b)
      if normalized.isEmpty then getSampleDealsBase.map (fun d => addMetrics d b)
      else normalized
  | .error _ => getSampleDealsBase.map (fun d => addMetrics d b)

/-! Concrete inputs used by witnesses and counterexamples. -/

/-- A deal whose rate is zero (all defaults). -/
def dealZeroRate : DealRec := {}

/-- A zero-rate deal with an arrangement fee of 999. -/
def dealZeroRateFee : DealRec := { arrangementFee := 999 }

/-- A deal whose computed monthly payment rounds to exactly 650.00 at
principal 85819.31 over 180 months (rate 4.3511 percent), with net fees 999. -/
def deal650 : DealRec := { interestRate := 43511/10000, arrangementFee := 999 }

/-- A deal at the sample rate 4.19. -/
def deal419 : DealRec := { interestRate := 4.19 }

/-- A deal with rate 5 (used to exhibit an out-of-order live result). -/
def dealRate5 : DealRec := { interestRate := 5 }

/-- A deal with rate 4 (used to exhibit an out-of-order live result). -/
def dealRate4 : DealRec := { interestRate := 4 }

/-- A zero-rate deal with a positive net fee (arrangement fee 100). -/
def dealFee100 : DealRec := { arrangementFee := 100 }

/-- Six identical trivial deals, to exercise the limit handling. -/
def sixDeals : List DealRec := List.replicate 6 {}

/-- A candidate from source A. -/
def candA : Candidate := { lenderName := "A", productName := "P", interestRate := 4 }

/-- A candidate from source B. -/
def candB : Candidate := { lenderName := "B", productName := "P", interestRate := 4 }

/-- A persistence oracle accepting only the candidate of lender A. -/
def okOnlyA : Candidate → Bool := fun c => c.lenderName == "A"

/-- The filter set of the spec example: maxRate 4.3 and dealType Fixed. -/
def fSpec : Filters := { maxRate := some (43/10), dealType := some "Fixed" }

/-! Helper lemmas shared across the development. -/

theorem round2_mono {x y : ℚ} (h : x ≤ y) : round2 x ≤ round2 y := by
  unfold round2
  have hf : ⌊x * 100 + 1/2⌋ ≤ ⌊y * 100 + 1/2⌋ := Int.floor_le_floor (by linarith)
  have hc : ((⌊x * 100 + 1/2⌋ : ℤ) : ℚ) ≤ ((⌊y * 100 + 1/2⌋ : ℤ) : ℚ) := by
    exact_mod_cast hf
  linarith

theorem rawMonthlyPayment_nonneg (rate : ℚ) : 0 ≤ rawMonthlyPayment rate := by
  unfold rawMonthlyPayment
  by_cases h : 0 < rate / 100 / 12
  · rw [if_pos h]
    have hpow : (1 : ℚ) ≤ (1 + rate / 100 / 12) ^ numPayments :=
      one_le_pow₀ (by linarith)
    have hden : (0 : ℚ) ≤ (1 + rate / 100 / 12) ^ numPayments - 1 := by linarith
    have hnum : (0 : ℚ) ≤
        principalConst * (rate / 100 / 12 * (1 + rate / 100 / 12) ^ numPayments) := by
      have : (0 : ℚ) < principalConst := by norm_num [principalConst]
      positivity
    exact div_nonneg hnum hden
  · rw [if_neg h]

theorem matchesFilters_empty (d : DealRec) : matchesFilters {} d = true := by
  simp [matchesFilters, optCheck]

theorem getSampleDealsBase_ne_nil : getSampleDealsBase ≠ [] := by
  simp [getSampleDealsBase]


/-- C3 counterexample: for a deal with a zero (or unparseable, coerced to 0)
interest rate, addMetrics returns monthlyPayment 0, not principal / n: the
claimed value principal / 180 rounds to 476.77, which is not 0. -/
theorem addMetrics_zeroRate_counterexample :
    (addMetrics dealZeroRate none).monthlyPayment = 0 ∧
    round2 (principalConst / 180) = 47677/100 ∧ ((47677 : ℚ)/100) ≠ 0 := by
  refine ⟨?_, ?_, by norm_num⟩
  · norm_num [addMetrics, dealZeroRate, rawMonthlyPayment, round2]
  · norm_num [round2, principalConst]

/-- C3 amended: addMetrics computes monthlyPayment as the amortizing-loan
formula rounded to 2 decimals when the interest rate is positive, and returns
0 (not principal / n) when the rate is zero or negative (the coerced value of
an unparseable rate being 0). -/
theorem addMetrics_payment_formula (d : DealRec) (b : Option ℚ) :
    (0 < d.interestRate →
      (addMetrics d b).monthlyPayment =
        round2 (principalConst * ((d.interestRate / 1200) *
            (1 + d.interestRate / 1200) ^ 180) /
          ((1 + d.interestRate / 1200) ^ 180 - 1))) ∧
    (d.interestRate ≤ 0 → (addMetrics d b).monthlyPayment = 0) := by
  constructor
  · intro h
    have hr : (0 : ℚ) < d.interestRate / 100 / 12 := by positivity
    simp only [addMetrics, rawMonthlyPayment, numPayments, if_pos hr]
    norm_num [div_div]
  · intro h
    have hr : ¬ (0 : ℚ) < d.interestRate / 100 / 12 := by
      rw [not_lt, div_div]
      exact div_nonpos_iff.mpr (Or.inr ⟨h, by norm_num⟩)
    simp only [addMetrics, rawMonthlyPayment, numPayments, if_neg hr]
    norm_num [round2]

/-- C3 witness: the amended payment rule applied at the concrete sample rate
4.19. -/
theorem addMetrics_payment_formula_witness :
    0 < deal419.interestRate ∧
    (addMetrics deal419 none).monthlyPayment =
      round2 (principalConst * ((deal419.interestRate / 1200) *
          (1 + deal419.interestRate / 1200) ^ 180) /
        ((1 + deal419.interestRate / 1200) ^ 180 - 1)) :=
  ⟨by norm_num [deal419], (addMetrics_payment_formula deal419 none).1 (by norm_num [deal419])⟩

/-- C8: for every deal and baseline, when netFees is nonnegative the computed
5-year total cost is at least the 2-year total cost (both are the unrounded
payment times the month count plus netFees, rounded to 2 decimals, and the
payment is nonnegative). -/
theorem totalCost_monotone (d : DealRec) (b : Option ℚ) (h : 0 ≤ netFeesOf d) :
    (addMetrics d b).totalCost2Years ≤ (addMetrics d b).totalCost5Years := by
  have hp : 0 ≤ rawMonthlyPayment d.interestRate := rawMonthlyPayment_nonneg _
  simp only [addMetrics]
  exact round2_mono (by linarith)

/-- C8 witness: total-cost monotonicity at a concrete deal with netFees 100. -/
theorem totalCost_monotone_witness :
    0 ≤ netFeesOf dealFee100 ∧
    (addMetrics dealFee100 none).totalCost2Years ≤
      (addMetrics dealFee100 none).totalCost5Years :=
  ⟨by norm_num [netFeesOf, dealFee100],
   totalCost_monotone dealFee100 none (by norm_num [netFeesOf, dealFee100])⟩

/-- C4 counterexample: with baseline 0.004 over a zero-payment deal with
netFees 999, the reported monthlySavings rounds to 0.00 (so the claim requires
breakEvenMonths = null), yet the code computes the break-even from the
unrounded savings 0.004 > 0 and returns ceil(999 / 0.004) = 249750. -/
theorem addMetrics_breakEven_counterexample :
    (addMetrics dealZeroRateFee (some (1/250))).monthlySavings = some 0 ∧
    (addMetrics dealZeroRateFee (some (1/250))).breakEvenMonths = some 249750 := by
  constructor
  · norm_num [addMetrics, dealZeroRateFee, rawMonthlyPayment, round2]
  · norm_num [addMetrics, dealZeroRateFee, rawMonthlyPayment, round2, netFeesOf,
      jsCeil, Int.ceil_eq_iff]

/-- C4 amended: monthlySavings is baseline minus the rounded payment, rounded
to 2 decimals, but the break-even guard and quotient use the UNROUNDED
difference savings = baseline - monthlyPayment: breakEvenMonths =
ceil(netFees / savings) exactly when savings > 0 and netFees > 0, else null.
The spec instance still holds: baseline 700, computed payment 650 and netFees
999 yield monthlySavings 50.00 and breakEvenMonths 20. -/
theorem addMetrics_breakEven_rule (d : DealRec) (b : ℚ) :
    (addMetrics d (some b)).monthlySavings =
      some (round2 (b - (addMetrics d (some b)).monthlyPayment)) ∧
    (0 < b - (addMetrics d (some b)).monthlyPayment ∧ 0 < netFeesOf d →
      (addMetrics d (some b)).breakEvenMonths =
        some (jsCeil (netFeesOf d / (b - (addMetrics d (some b)).monthlyPayment)))) ∧
    (¬(0 < b - (addMetrics d (some b)).monthlyPayment ∧ 0 < netFeesOf d) →
      (addMetrics d (some b)).breakEvenMonths = none) ∧
    ((addMetrics d (some b)).monthlyPayment = 650 ∧ b = 700 ∧ netFeesOf d = 999 →
      (addMetrics d (some b)).monthlySavings = some 50 ∧
      (addMetrics d (some b)).breakEvenMonths = some 20) := by
  refine ⟨?_, ?_, ?_, ?_⟩
  · simp [addMetrics]
  · intro h
    simp only [addMetrics, Option.some_bind'] at h ⊢
    rw [if_pos h]
  · intro h
    simp only [addMetrics, Option.some_bind'] at h ⊢
    rw [if_neg h]
  · intro ⟨hmp, hb, hnf⟩
    simp only [addMetrics, Option.some_bind', Option.map_some'] at hmp ⊢
    rw [hmp, hb, hnf]
    constructor
    · norm_num [round2]
    · rw [if_pos (by norm_num)]
      norm_num [jsCeil, Int.ceil_eq_iff]

/-- C4 witness: the concrete deal at rate 4.3511 has computed monthlyPayment
exactly 650.00 and netFees 999; with baseline 700 the amended rule yields
monthlySavings 50.00 and breakEvenMonths 20. -/
theorem addMetrics_breakEven_rule_witness :
    (addMetrics deal650 (some 700)).monthlyPayment = 650 ∧
    netFeesOf deal650 = 999 ∧
    (addMetrics deal650 (some 700)).monthlySavings = some 50 ∧
    (addMetrics deal650 (some 700)).breakEvenMonths = some 20 := by
  have hmp : (addMetrics deal650 (some 700)).monthlyPayment = 650 := by
    simp only [addMetrics, deal650]
    rw [rawMonthlyPayment]
    norm_num [round2, principalConst, numPayments]
  have hnf : netFeesOf deal650 = 999 := by norm_num [netFeesOf, deal650]
  have h := (addMetrics_breakEven_rule deal650 700).2.2.2 ⟨hmp, rfl, hnf⟩
  exact ⟨hmp, hnf, h.1, h.2⟩

/-- C10: getSampleDeals is a fixed pure value with exactly 24 deals, hence
deterministic and never empty; every sample rate is positive, the list is in
ascending interest-rate order, and every precomputed monthlyPayment is the
amortization of principal 85819.31 over 15 years at that rate, rounded to 2
decimals. -/
theorem getSampleDeals_spec :
    getSampleDeals.length = 24 ∧
    getSampleDeals ≠ [] ∧
    (∀ p ∈ getSampleDeals,
      0 < p.1.interestRate ∧ p.2 = round2 (samplePayment p.1.interestRate)) ∧
    List.Chain' (fun p q => p.1.interestRate ≤ q.1.interestRate) getSampleDeals := by
  refine ⟨?_, ?_, ?_, ?_⟩
  · simp [getSampleDeals, getSampleDealsBase]
  · simp [getSampleDeals, getSampleDealsBase]
  · intro p hp
    simp only [getSampleDeals, List.mem_map] at hp
    obtain ⟨d, hd, rfl⟩ := hp
    refine ⟨?_, rfl⟩
    fin_cases hd <;> norm_num
  · rw [getSampleDeals, List.chain'_map]
    norm_num [getSampleDealsBase, List.chain'_cons]

theorem saveDeals_count_aux (src : String) (now : Nat) (ok : Candidate → Bool) :
    ∀ (cands : List Candidate) (t : List DealRec) (k : Nat),
      (cands.foldl (saveStep src now ok) (t, k)).2 = k + cands.countP ok := by
  intro cands
  induction cands with
  | nil => intro t k; simp
  | cons c cs ih =>
      intro t k
      by_cases h : ok c
      · simp only [List.foldl_cons, saveStep, h, if_true, List.countP_cons, ih]
        omega
      · simp only [List.foldl_cons, saveStep, h, if_false, List.countP_cons, ih]
        simp [h]

/-- C9: saveDeals always appends exactly one audit row, with status success
and count equal to the number of records whose upsert succeeded (even when
some or all fail); a success orchestration pass appends only that row, and an
error audit row (count 0) is appended exactly when the acquisition itself
throws in runAllScrapers. -/
theorem saveDeals_audit (st : DbState) (cands : List Candidate) (src : String)
    (ok : Candidate → Bool) (now : Nat) :
    (saveDeals st cands src ok now).1.logs =
      st.logs ++ [⟨src, "success", cands.countP ok, none⟩] ∧
    (saveDeals st cands src ok now).2 = cands.countP ok ∧
    (∀ st2, (runAllScrapers (.ok cands) ok now st2).2.logs =
      st2.logs ++ [⟨"MoneySuperMarket", "success", cands.countP ok, none⟩]) ∧
    (∀ msg st2, (runAllScrapers (.error msg) ok now st2).2.logs =
      st2.logs ++ [⟨"MoneySuperMarket", "error", 0, some msg⟩]) := by
  have hc : ∀ st3 : DbState, (saveDeals st3 cands src ok now).2 = cands.countP ok := by
    intro st3
    simp [saveDeals, saveDeals_count_aux]
  have hl : ∀ (st3 : DbState) (s2 : String),
      (saveDeals st3 cands s2 ok now).1.logs =
        st3.logs ++ [⟨s2, "success", cands.countP ok, none⟩] := by
    intro st3 s2
    simp [saveDeals, logScrape, saveDeals_count_aux]
  refine ⟨hl st src, hc st, ?_, ?_⟩
  · intro st2
    simp only [runAllScrapers]
    exact hl st2 "MoneySuperMarket"
  · intro msg st2
    simp [runAllScrapers, logScrape]

/-- C1 counterexample: when the single configured adapter throws, the summary
is the empty array — it contains NO 0-count entry for that source; and on a
successful acquisition of two candidates of which only one persists, the
summary entry reports 2 (the acquired count) while only 1 deal is persisted. -/
theorem runAllScrapers_counterexample :
    (runAllScrapers (.error "network failure") okOnlyA 0 ⟨[], []⟩).1 = [] ∧
    (runAllScrapers (.ok [candA, candB]) okOnlyA 0 ⟨[], []⟩).1 =
      [⟨"MoneySuperMarket", 2⟩] ∧
    (runAllScrapers (.ok [candA, candB]) okOnlyA 0 ⟨[], []⟩).2.deals.length = 1 := by
  refine ⟨rfl, rfl, ?_⟩
  simp [runAllScrapers, saveDeals, saveStep, okOnlyA, candA, candB, upsertDeal,
    logScrape]

/-- C1 amended: runAllScrapers isolates an adapter failure by catching it,
logging an error IngestionRun with count 0 and returning normally with an
EMPTY summary (no 0-count entry); on a resolved acquisition the single summary
entry carries the number of candidates ACQUIRED, which bounds (but need not
equal) the number of records actually persisted. -/
theorem runAllScrapers_summary (res : Except String (List Candidate))
    (ok : Candidate → Bool) (now : Nat) (st : DbState) :
    (∀ msg, res = .error msg →
      (runAllScrapers res ok now st).1 = [] ∧
      (runAllScrapers res ok now st).2 =
        logScrape st "MoneySuperMarket" "error" 0 (some msg)) ∧
    (∀ ds, res = .ok ds →
      (runAllScrapers res ok now st).1 = [⟨"MoneySuperMarket", ds.length⟩] ∧
      (runAllScrapers res ok now st).2 =
        (saveDeals st ds "MoneySuperMarket" ok now).1 ∧
      (saveDeals st ds "MoneySuperMarket" ok now).2 ≤ ds.length) := by
  constructor
  · intro msg hres
    subst hres
    exact ⟨rfl, rfl⟩
  · intro ds hres
    subst hres
    refine ⟨rfl, rfl, ?_⟩
    have : (saveDeals st ds "MoneySuperMarket" ok now).2 = ds.countP ok := by
      simp [saveDeals, saveDeals_count_aux]
    rw [this]
    exact List.countP_le_length ok

/-- C1 witness: the amended summary rule applied to a resolved scrape of one
candidate. -/
theorem runAllScrapers_summary_witness :
    (runAllScrapers (.ok [candA]) okOnlyA 0 ⟨[], []⟩).1 =
      [⟨"MoneySuperMarket", 1⟩] ∧
    (runAllScrapers (.ok [candA]) okOnlyA 0 ⟨[], []⟩).2 =
      (saveDeals ⟨[], []⟩ [candA] "MoneySuperMarket" okOnlyA 0).1 ∧
    (saveDeals ⟨[], []⟩ [candA] "MoneySuperMarket" okOnlyA 0).2 ≤ 1 :=
  (runAllScrapers_summary (.ok [candA]) okOnlyA 0 ⟨[], []⟩).2 [candA] rfl

theorem keyMatchB_update (c : Candidate) (now : Nat) (r : DealRec) :
    keyMatchB c (updateOnConflict c now r) = keyMatchB c r := by
  simp [keyMatchB, updateOnConflict]

theorem keyMatchB_normalize (c : Candidate) (src : String) (now : Nat) :
    keyMatchB c (normalizeDeal c src now) = true := by
  simp [keyMatchB, normalizeDeal]

theorem keyMatchB_step (c : Candidate) (now : Nat) (r : DealRec) :
    keyMatchB c (if keyMatchB c r then updateOnConflict c now r else r) =
      keyMatchB c r := by
  by_cases h : keyMatchB c r <;> simp [h, keyMatchB_update]

theorem upsertDeal_any (t : List DealRec) (c : Candidate) (src : String)
    (now : Nat) : (upsertDeal t c src now).any (keyMatchB c) = true := by
  unfold upsertDeal
  by_cases h : t.any (keyMatchB c)
  · rw [if_pos h]
    obtain ⟨r, hr, hm⟩ := List.any_eq_true.mp h
    refine List.any_eq_true.mpr ⟨_, List.mem_map_of_mem _ hr, ?_⟩
    rw [keyMatchB_step]
    exact hm
  · rw [if_neg h]
    simp [List.any_append, keyMatchB_normalize]

theorem upsertDeal_fee (t : List DealRec) (c : Candidate) (src : String)
    (now : Nat) :
    ∀ r ∈ upsertDeal t c src now, keyMatchB c r = true →
      r.arrangementFee = jsOrRat c.arrangementFee 0 := by
  intro r hr hk
  unfold upsertDeal at hr
  by_cases h : t.any (keyMatchB c)
  · rw [if_pos h] at hr
    obtain ⟨x, _, rfl⟩ := List.mem_map.mp hr
    by_cases hm : keyMatchB c x
    · simp [hm, updateOnConflict]
    · rw [if_neg hm] at hk
      exact absurd hk (by simp [hm])
  · rw [if_neg h] at hr
    rcases List.mem_append.mp hr with h1 | h2
    · have := List.any_eq_false.mp (Bool.not_eq_true _ ▸ h) r h1
      exact absurd hk (by simp [this])
    · have : r = normalizeDeal c src now := by simpa using h2
      subst this
      simp [normalizeDeal]

theorem upsertDeal_countP (t : List DealRec) (c : Candidate) (src : String)
    (now : Nat) :
    (upsertDeal t c src now).countP (keyMatchB c) =
      if t.any (keyMatchB c) then t.countP (keyMatchB c)
      else t.countP (keyMatchB c) + 1 := by
  unfold upsertDeal
  by_cases h : t.any (keyMatchB c)
  · rw [if_pos h, if_pos h, List.countP_map]
    apply List.countP_congr
    intro r _
    simp only [Function.comp_apply]
    rw [keyMatchB_step]
  · rw [if_neg h, if_neg h]
    simp [List.countP_append, List.countP_cons, keyMatchB_normalize]

/-- C5: under the table invariant that the conflict key occurs at most once,
upserting the same candidate twice leaves exactly one row with that key, and
the second upsert is exactly the first result with only scraped_at replaced on
the matching row — the fee is rewritten to the value it already has, and
lender name, product name, interest rate and every other field are unchanged. -/
theorem upsertDeal_idem (t : List DealRec) (c : Candidate) (src : String)
    (n1 n2 : Nat) (h : t.countP (keyMatchB c) ≤ 1) :
    (upsertDeal (upsertDeal t c src n1) c src n2).countP (keyMatchB c) = 1 ∧
    upsertDeal (upsertDeal t c src n1) c src n2 =
      (upsertDeal t c src n1).map
        (fun r => if keyMatchB c r then { r with scrapedAt := n2 } else r) := by
  constructor
  · rw [upsertDeal_countP, if_pos (upsertDeal_any t c src n1), upsertDeal_countP]
    by_cases ha : t.any (keyMatchB c)
    · rw [if_pos ha]
      have hpos : 0 < t.countP (keyMatchB c) := by
        obtain ⟨r, hr, hm⟩ := List.any_eq_true.mp ha
        exact List.countP_pos_iff.mpr ⟨r, hr, hm⟩
      omega
    · rw [if_neg ha]
      have hz : t.countP (keyMatchB c) = 0 := by
        refine List.countP_eq_zero.mpr ?_
        intro a hat
        exact (List.any_eq_false.mp (Bool.not_eq_true _ ▸ ha)) a hat
      omega
  · conv_lhs => rw [upsertDeal, if_pos (upsertDeal_any t c src n1)]
    apply List.map_congr_left
    intro r hr
    by_cases hm : keyMatchB c r
    · rw [if_pos hm, if_pos hm]
      have hfee := upsertDeal_fee t c src n1 r hr hm
      cases r
      simp only [updateOnConflict] at hfee ⊢
      simp_all
    · rw [if_neg hm, if_neg hm]

/-- C5 witness: the idempotence law at the empty table and a concrete
candidate. -/
theorem upsertDeal_idem_witness :
    (([] : List DealRec).countP (keyMatchB candA) ≤ 1) ∧
    (upsertDeal (upsertDeal [] candA "S" 1) candA "S" 2).countP
      (keyMatchB candA) = 1 ∧
    upsertDeal (upsertDeal [] candA "S" 1) candA "S" 2 =
      (upsertDeal [] candA "S" 1).map
        (fun r => if keyMatchB candA r then { r with scrapedAt := 2 } else r) := by
  refine ⟨by simp, ?_, ?_⟩
  · exact (upsertDeal_idem [] candA "S" 1 2 (by simp)).1
  · exact (upsertDeal_idem [] candA "S" 1 2 (by simp)).2

/-- C6 counterexample: the limit parameter -5 parses to -5 (not NaN), so the
cap does NOT fall back to 50: the repository read errors on the negative LIMIT
and the in-memory fallback slice(0, -5) drops the last 5 of the 6 filtered
deals, returning 1 deal where the claimed default cap of 50 would return all 6. -/
theorem searchLimit_counterexample :
    effectiveLimit (some "-5") = -5 ∧
    Except.map List.length
      (searchHandler (.ok []) (.ok sixDeals) {} (some "-5") none) = .ok 1 ∧
    sixDeals.length = 6 ∧ (6 : Nat) ≤ 50 := by
  have hl : effectiveLimit (some "-5") = -5 := by decide
  have hf : sixDeals.filter (matchesFilters {}) = sixDeals :=
    List.filter_eq_self.mpr (fun a _ => matchesFilters_empty a)
  refine ⟨hl, ?_, by simp [sixDeals], by norm_num⟩
  have hmain : searchHandler (.ok []) (.ok sixDeals) {} (some "-5") none =
      .ok (inMemoryStage sixDeals {} (-5) none) := by
    norm_num [searchHandler, hl, dbResultOf, dbQuery]
  rw [hmain]
  simp only [Except.map, inMemoryStage, List.length_map, jsSlice]
  rw [if_neg (by norm_num), hf]
  simp [sixDeals]

/-- C6 amended: the cap is parseInt of the limit parameter whenever that
parses (zero and negative values included, which are NOT defaulted: a negative
limit errors the repository read and slices from the end in memory), and the
default 50 applies exactly when the parameter is absent, empty, or parses to
NaN; a nonnegative cap bounds the result length on both the repository path
and the in-memory fallback path. -/
theorem effectiveLimit_spec (s : String) (n : Int) :
    effectiveLimit none = 50 ∧
    effectiveLimit (some "") = 50 ∧
    (parseIntJS s = none → effectiveLimit (some s) = 50) ∧
    (parseIntJS s = some n → s ≠ "" → effectiveLimit (some s) = n) ∧
    (0 ≤ n → ∀ (cs : List DealRec) (f : Filters) (b : Option ℚ),
      (inMemoryStage cs f n b).length ≤ n.toNat) ∧
    (0 ≤ n → ∀ (t : List DealRec) (f : Filters) (rows : List DealRec),
      dbQuery t f n = .ok rows → rows.length ≤ n.toNat) ∧
    (n < 0 → ∀ (t : List DealRec) (f : Filters), dbQuery t f n = .error ()) := by
  refine ⟨by simp [effectiveLimit], by simp [effectiveLimit], ?_, ?_, ?_, ?_, ?_⟩
  · intro h
    by_cases hs : s = "" <;> simp [effectiveLimit, hs, h]
  · intro h hs
    simp [effectiveLimit, hs, h]
  · intro hn cs f b
    simp only [inMemoryStage, List.length_map, jsSlice, if_pos hn,
      List.length_take]
    exact Nat.min_le_left _ _
  · intro hn t f rows h
    unfold dbQuery at h
    rw [if_neg (by omega)] at h
    have : (sortByRate (t.filter (matchesFilters f))).take n.toNat = rows := by
      simpa using h
    rw [← this, List.length_take]
    exact Nat.min_le_left _ _
  · intro hn t f
    unfold dbQuery
    rw [if_pos hn]

/-- C6 witness: the amended limit rule at the concrete parameter 37. -/
theorem effectiveLimit_spec_witness :
    parseIntJS "37" = some 37 ∧ ("37" : String) ≠ "" ∧
    effectiveLimit (some "37") = 37 :=
  ⟨by decide, by decide,
   (effectiveLimit_spec "37" 37).2.2.2.1 (by decide) (by decide)⟩

theorem optCheck_eq_true {α : Type} (x : Option α) (p : α → Bool) :
    optCheck x p = true ↔ ∀ v, x = some v → p v = true := by
  cases x <;> simp [optCheck]

theorem flagImp (a b : Bool) : ((!a || b) = true) ↔ (a = true → b = true) := by
  cases a <;> simp

/-- C7 counterexample: with no filters, an empty repository and a live scrape
returning rates 5 then 4, the search result is the scrape in acquisition
order — the in-memory fallback path never re-sorts, so the result is not in
ascending interest-rate order. -/
theorem searchOrdering_counterexample :
    searchHandler (.ok []) (.ok [dealRate5, dealRate4]) {} none none =
      .ok [addMetrics dealRate5 none, addMetrics dealRate4 none] ∧
    ¬ rateLE dealRate5 dealRate4 := by
  constructor
  · have h50 : effectiveLimit none = 50 := by decide
    norm_num [searchHandler, h50, dbResultOf, dbQuery, sortByRate, inMemoryStage,
      jsSlice, matchesFilters_empty]
  · norm_num [rateLE, dealRate5, dealRate4]

/-- C7 amended: matchesFilters is exactly the AND of the present predicates
(absent filters impose no constraint) and is the predicate of both cascade
paths; the repository path result is sorted ascending by rate and drawn from
the table; the live fallback path keeps acquisition order (no re-sort), its
membership being filter membership. -/
theorem queryFilter_spec (f : Filters) (d : DealRec) (l t : List DealRec)
    (lim : Int) :
    (matchesFilters f d = true ↔
      ((∀ r, f.maxRate = some r → d.interestRate ≤ r) ∧
       (∀ v, f.minLTV = some v → v ≤ d.maxLTV) ∧
       (∀ s, f.dealType = some s → d.dealType = s) ∧
       (∀ s, f.lenderType = some s → d.lenderType = s) ∧
       (∀ n, f.termYears = some n → d.termYears = n) ∧
       (f.freeValuation = true → d.freeValuation = true) ∧
       (f.freeLegalWork = true → d.freeLegalWork = true) ∧
       (∀ m, f.maxArrangementFee = some m → d.arrangementFee ≤ m) ∧
       (f.hasCashback = true → 0 < d.cashback))) ∧
    (d ∈ l.filter (matchesFilters f) ↔ d ∈ l ∧ matchesFilters f d = true) ∧
    (∀ rows, dbQuery t f lim = .ok rows →
      List.Sorted rateLE rows ∧ ∀ x ∈ rows, x ∈ t ∧ matchesFilters f x = true) := by
  refine ⟨?_, List.mem_filter, ?_⟩
  · simp only [matchesFilters, Bool.and_eq_true, optCheck_eq_true, flagImp,
      decide_eq_true_eq, beq_iff_eq]
    tauto
  · intro rows h
    unfold dbQuery at h
    by_cases hn : lim < 0
    · rw [if_pos hn] at h
      exact absurd h (by simp)
    · rw [if_neg hn] at h
      have hrows : rows = (sortByRate (t.filter (matchesFilters f))).take lim.toNat := by
        have := h
        simp only [Except.ok.injEq] at this
        exact this.symm
      subst hrows
      constructor
      · exact (List.sorted_insertionSort rateLE _).sublist (List.take_sublist _ _)
      · intro x hx
        have hx2 : x ∈ sortByRate (t.filter (matchesFilters f)) :=
          (List.take_sublist _ _).subset hx
        have hx3 : x ∈ t.filter (matchesFilters f) := by
          unfold sortByRate at hx2
          exact (List.mem_insertionSort rateLE).mp hx2
        exact List.mem_filter.mp hx3

/-- C7 witness: the amended filter rule at the spec example filters
(maxRate 4.3, dealType Fixed) over a one-deal table. -/
theorem queryFilter_spec_witness :
    dbQuery [dealRate4] fSpec 50 = .ok [dealRate4] ∧
    List.Sorted rateLE [dealRate4] ∧
    (∀ x ∈ [dealRate4], x ∈ [dealRate4] ∧ matchesFilters fSpec x = true) := by
  have hq : dbQuery [dealRate4] fSpec 50 = .ok [dealRate4] := by
    norm_num [dbQuery, sortByRate, matchesFilters, optCheck, fSpec, dealRate4,
      List.insertionSort, List.orderedInsert]
  have h := (queryFilter_spec fSpec dealRate4 [] [dealRate4] 50).2.2 [dealRate4] hq
  exact ⟨hq, h.1, h.2⟩

/-- C2 counterexample: with an empty repository and a live scrape resolving to
an empty list, the filtered search path returns an empty (200) result — there
is no third, static-sample stage on this path and the result can be empty. -/
theorem searchCascade_counterexample :
    searchHandler (.ok []) (.ok []) {} none none = .ok [] := by
  have h50 : effectiveLimit none = 50 := by decide
  norm_num [searchHandler, h50, dbResultOf, dbQuery, sortByRate, inMemoryStage,
    jsSlice]

/-- C2 amended: the filtered search path is a TWO-stage cascade — repository
query, then live acquisition filtered in memory with the same predicates —
with no static stage: it can return an empty list, and returns an error
exactly when both stages fail.  The static sample fallback exists only on the
unfiltered latest path, which is indeed never empty. -/
theorem searchCascade_spec (t cs : List DealRec) (f : Filters)
    (limit : Option String) (b : Option ℚ) :
    (searchHandler (.error ()) (.error ()) f limit b = .error ()) ∧
    (∀ rows, rows ≠ [] →
      dbResultOf (.ok t) f (effectiveLimit limit) = .ok rows →
      searchHandler (.ok t) (.ok cs) f limit b =
        .ok (rows.map (fun d => addMetrics d b))) ∧
    (dbResultOf (.ok t) f (effectiveLimit limit) = .ok [] →
      searchHandler (.ok t) (.ok cs) f limit b =
        .ok (inMemoryStage cs f (effectiveLimit limit) b)) ∧
    (searchHandler (.error ()) (.ok cs) f limit b =
      .ok (inMemoryStage cs f (effectiveLimit limit) b)) ∧
    (∀ db, latestHandler db b ≠ []) := by
  refine ⟨rfl, ?_, ?_, rfl, ?_⟩
  · intro rows hne hdb
    simp only [searchHandler, hdb]
    rw [if_neg]
    simp [hne]
  · intro hdb
    simp only [searchHandler, hdb]
    rw [if_pos (by simp)]
  · intro db
    cases db with
    | error e =>
        simp only [latestHandler]
        simp [getSampleDealsBase]
    | ok t2 =>
        simp only [latestHandler]
        by_cases he : (((sortByRate t2).take 100).map (fun d => addMetrics d b)).isEmpty
        · rw [if_pos he]
          simp [getSampleDealsBase]
        · rw [if_neg he]
          simpa [List.isEmpty_iff] using he

/-- C2 witness: the amended cascade rule at a one-deal repository (first stage
yields data and is returned) and at an erroring repository with a live scrape
(second stage is returned). -/
theorem searchCascade_spec_witness :
    ([dealZeroRate] ≠ ([] : List DealRec)) ∧
    dbResultOf (.ok [dealZeroRate]) {} (effectiveLimit none) = .ok [dealZeroRate] ∧
    searchHandler (.ok [dealZeroRate]) (.ok []) {} none none =
      .ok ([dealZeroRate].map (fun d => addMetrics d none)) := by
  have h50 : effectiveLimit none = 50 := by decide
  have hdb : dbResultOf (.ok [dealZeroRate]) {} (effectiveLimit none) =
      .ok [dealZeroRate] := by
    norm_num [dbResultOf, dbQuery, h50, sortByRate, matchesFilters_empty,
      List.insertionSort, List.orderedInsert]
  exact ⟨by simp, hdb,
    (searchCascade_spec [dealZeroRate] [] {} none none).2.1 [dealZeroRate]
      (by simp) hdb⟩
